import Mathlib

/-!
Verification development for the EM Vidros RAG assistant.

The Python sources are embedded shallowly:
pure functions become Lean functions, the SQLite session store becomes an
explicit record of session and message rows with connection-level
commit/rollback semantics, and effectful collaborators (HTTP fetches, the
vector retriever, the completion service) become explicit oracle
parameters of type Option/Except.  Machine-level details that no claim
depends on (JSON round-tripping of metadata dicts, float scores) are
carried as opaque payloads.
-/

/-! ## String primitives

Models of the Python string operations used by the sources.  Python's
`pat in s` membership test and `str.lower` are re-implemented over the
character list of a `String` so that they evaluate inside the kernel.
`lowerStr` maps ASCII letters only; every non-ASCII character in the
router's patterns and in the messages analysed below is already
lowercase, so on those inputs it agrees with Python `str.lower`. -/

/-- Models Python `str.lower` (ASCII letters; see note above). -/
def lowerStr (s : String) : String :=
  String.mk (s.data.map Char.toLower)

/-- Helper for `containsSubstr`: does `pat` occur as a contiguous
sublist of `s`? -/
def csAux : List Char → List Char → Bool
  | _, [] => true
  | [], _ => false
  | c :: cs, pat => List.isPrefixOf pat (c :: cs) || csAux cs pat

/-- Models Python substring membership `pat in s`. -/
def containsSubstr (s pat : String) : Bool :=
  csAux s.data pat.data

namespace QueryRouter

/-! ## src/query_router.py — QueryRouter

The two pattern lists are alternations of regex-metacharacter-free
literals compiled with `re.IGNORECASE`; `re.search` on such an
alternation succeeds exactly when some literal occurs case-insensitively
in the message, which is what `patternSearch` computes.  (`IGNORECASE`
folds `Ê` to `ê` but never `ê` to `e`: accented and unaccented letters
stay distinct, exactly as in `containsSubstr`.) -/

def SUPPORT_EMAIL : String := "suporte@emvidros.com.br"

def SUPPORT_RESPONSE : String := "Para consultas sobre entrega de produtos, status de pedidos ou situação de entrega, por favor entre em contato com nosso suporte:\n\n📧 Email: {email}\n\nNossa equipe terá prazer em ajudá-lo com informações específicas sobre seu pedido e entrega.\n\nPara agilizar o atendimento, tenha em mãos:\n- Número do pedido\n- CPF/CNPJ do cadastro\n- Data da compra\n"

def DELIVERY_PATTERNS : List String :=
  ["entrega", "pedido", "envio", "rastreamento", "rastrear", "status",
   "saiu para entrega", "quando chega", "quando vai chegar", "demora",
   "atraso", "prazo de entrega", "frete", "transportadora", "correio",
   "jadlog", "meu produto", "minha compra", "já foi enviado",
   "quanto tempo", "onde está"]

def PRODUCT_PATTERNS : List String :=
  ["quais produtos", "o que vende", "tem vidro", "tem espelho",
   "preço", "valor", "catálogo", "lista de produtos"]

/-- Models `re.search` of the `|`-joined literal patterns under
`re.IGNORECASE`, coerced to `bool`. -/
def patternSearch (patterns : List String) (message : String) : Bool :=
  patterns.any (fun p => containsSubstr (lowerStr message) p)

/-- Models `QueryRouter._is_delivery_query`. -/
def is_delivery_query (message : String) : Bool :=
  let has_delivery := patternSearch DELIVERY_PATTERNS message
  let has_product := patternSearch PRODUCT_PATTERNS message
  has_delivery && !has_product

/-- Return shape of `QueryRouter.route` on the routed branch. -/
structure RoutedResponse where
  response : String
  routed_to : String
  success : Bool
deriving DecidableEq, Repr

/-- Models `SUPPORT_RESPONSE.format(email=SUPPORT_EMAIL)`. -/
def supportResponseText : String :=
  String.replace SUPPORT_RESPONSE "{email}" SUPPORT_EMAIL

/-- Models `QueryRouter.route`: `None` means "continue to RAG". -/
def route (message : String) : Option RoutedResponse :=
  if is_delivery_query message then
    some { response := supportResponseText, routed_to := "support", success := true }
  else
    none

end QueryRouter

namespace SessionMemory

/-! ## src/memory.py — SessionMemory

The SQLite store is embedded as a record of session rows and message
rows.  `CURRENT_TIMESTAMP` becomes an explicit `now : Nat` argument.
Metadata payloads are carried as an opaque type parameter `α`
(`json.dumps`/`json.loads` round-trip to the identity on the value).
A connection is a pair of committed/pending stores: statements act on
the pending store, `commit` publishes it, and closing a connection
without a commit (which is what happens when a statement raises and the
`except` branch returns) rolls every uncommitted statement back — the
semantics of `sqlite3.connect` with its default implicit transaction. -/

/-- Row of the `messages` table (the `id` AUTOINCREMENT key is the
position in the list). -/
structure MessageRow (α : Type) where
  session_id : String
  role : String
  content : String
  timestamp : Nat
  metadata : Option α
deriving DecidableEq, Repr

/-- Row of the `sessions` table. -/
structure SessionRow (α : Type) where
  session_id : String
  created_at : Nat
  updated_at : Nat
  metadata : Option α
deriving DecidableEq, Repr

/-- The database state: contents of the two tables. -/
structure Store (α : Type) where
  sessions : List (SessionRow α)
  messages : List (MessageRow α)
deriving DecidableEq, Repr

/-- An open SQLite connection: the committed database plus the pending
view that statements of the current implicit transaction act on. -/
structure Conn (α : Type) where
  committed : Store α
  pending : Store α

/-- Models `sqlite3.connect`: pending view starts at the committed
database. -/
def connOpen (st : Store α) : Conn α :=
  { committed := st, pending := st }

/-- Models `conn.commit()`: publish the pending statements. -/
def Conn.commit (c : Conn α) : Conn α :=
  { committed := c.pending, pending := c.pending }

/-- Models `conn.close()` on the `finally` path: uncommitted statements
are rolled back, the committed database remains. -/
def Conn.close (c : Conn α) : Store α :=
  c.committed

/-- Models `INSERT OR IGNORE INTO sessions (session_id) VALUES (?)`. -/
def insertOrIgnoreSession (st : Store α) (sid : String) (now : Nat) : Store α :=
  if st.sessions.any (fun s => s.session_id == sid) then st
  else { st with sessions := st.sessions ++ [{ session_id := sid, created_at := now, updated_at := now, metadata := none }] }

/-- Models `INSERT INTO messages (session_id, role, content, metadata)`. -/
def insertMessage (st : Store α) (sid role content : String) (now : Nat) (md : Option α) : Store α :=
  { st with messages := st.messages ++ [{ session_id := sid, role := role, content := content, timestamp := now, metadata := md }] }

/-- Models `UPDATE sessions SET updated_at = CURRENT_TIMESTAMP WHERE session_id = ?`. -/
def bumpSessionUpdatedAt (st : Store α) (sid : String) (now : Nat) : Store α :=
  { st with sessions := st.sessions.map (fun s => if s.session_id == sid then { s with updated_at := now } else s) }

/-- Which of the three statements of `add_message` raises, if any. -/
inductive DbFailure
  | atEnsureSession
  | atInsertMessage
  | atBumpUpdatedAt
deriving DecidableEq, Repr

/-- Models `SessionMemory.add_message`: three statements on one
connection followed by a single `conn.commit()`; any statement raising
lands in the `except` branch, which returns `False` after the connection
is closed with the transaction uncommitted. -/
def add_message (st : Store α) (sid role content : String) (md : Option α)
    (now : Nat) (failure : Option DbFailure) : Store α × Bool :=
  let c0 := connOpen st
  match failure with
  | some .atEnsureSession => (Conn.close c0, false)
  | some .atInsertMessage =>
      (Conn.close { c0 with pending := insertOrIgnoreSession c0.pending sid now }, false)
  | some .atBumpUpdatedAt =>
      (Conn.close { c0 with pending := insertMessage (insertOrIgnoreSession c0.pending sid now) sid role content now md }, false)
  | none =>
      let c1 := { c0 with pending := bumpSessionUpdatedAt (insertMessage (insertOrIgnoreSession c0.pending sid now) sid role content now md) sid now }
      (Conn.close (Conn.commit c1), true)

/-- Does a session row with this id exist? -/
def sessionExists (st : Store α) (sid : String) : Bool :=
  st.sessions.any (fun s => s.session_id == sid)

/-- Models `SessionMemory.delete_session`.  The schema declares
`FOREIGN KEY (session_id) REFERENCES sessions(session_id) ON DELETE
CASCADE`, but `_get_connection` never executes `PRAGMA foreign_keys =
ON`, and `sqlite3` leaves foreign-key enforcement OFF by default, so the
`DELETE FROM sessions` statement removes session rows only and message
rows are untouched. -/
def delete_session (st : Store α) (sid : String) : Store α × Bool :=
  ({ st with sessions := st.sessions.filter (fun s => !(s.session_id == sid)) }, true)

/-- Ordered insertion used to model `ORDER BY timestamp ASC` (stable:
an earlier row with an equal timestamp stays earlier, as the
`(session_id, timestamp)` index scan produces). -/
def insertByTimestamp (m : MessageRow α) : List (MessageRow α) → List (MessageRow α)
  | [] => [m]
  | y :: ys => if m.timestamp ≤ y.timestamp then m :: y :: ys else y :: insertByTimestamp m ys

/-- Stable sort by timestamp, modelling `ORDER BY timestamp ASC`. -/
def sortByTimestamp : List (MessageRow α) → List (MessageRow α)
  | [] => []
  | m :: ms => insertByTimestamp m (sortByTimestamp ms)

/-- Rows of the `messages` table belonging to one session, in insertion
(rowid) order: models the `WHERE session_id = ?` clause. -/
def sessionMessages (st : Store α) (sid : String) : List (MessageRow α) :=
  st.messages.filter (fun m => m.session_id == sid)

/-- Models `Config.MAX_CHAT_HISTORY` (default of the env lookup: 10). -/
def MAX_CHAT_HISTORY : Nat := 10

/-- Models `limit = limit or Config.MAX_CHAT_HISTORY`: `None` and `0`
are falsy in Python, every other integer is truthy. -/
def effectiveLimit (limit : Option Int) : Int :=
  match limit with
  | none => (MAX_CHAT_HISTORY : Int)
  | some k => if k = 0 then (MAX_CHAT_HISTORY : Int) else k

/-- Models the SQL `LIMIT ?` clause: a negative limit means "no limit"
in SQLite. -/
def sqlLimit (k : Int) (l : List β) : List β :=
  if k < 0 then l else l.take k.toNat

/-- Shape of the dicts returned by `get_chat_history` (the `SELECT
role, content, timestamp, metadata` projection). -/
structure HistMsg (α : Type) where
  role : String
  content : String
  timestamp : Nat
  metadata : Option α
deriving DecidableEq, Repr

/-- Models `SessionMemory.get_chat_history`. -/
def get_chat_history (st : Store α) (sid : String) (limit : Option Int) : List (HistMsg α) :=
  (sqlLimit (effectiveLimit limit) (sortByTimestamp (sessionMessages st sid))).map
    (fun m => { role := m.role, content := m.content, timestamp := m.timestamp, metadata := m.metadata })

/-- Models `SessionMemory.get_session` (`None` when no row). -/
def get_session (st : Store α) (sid : String) : Option (SessionRow α) :=
  st.sessions.find? (fun s => s.session_id == sid)

/-- Models `SessionMemory.create_session`: `INSERT OR REPLACE` deletes
any previous row with the id and inserts a fresh one whose
`created_at`/`updated_at` default to the current timestamp. -/
def create_session (st : Store α) (sid : String) (md : Option α) (now : Nat) : Store α × Bool :=
  ({ st with sessions :=
      st.sessions.filter (fun s => !(s.session_id == sid)) ++
        [{ session_id := sid, created_at := now, updated_at := now, metadata := md }] }, true)

end SessionMemory

namespace WebsiteScraper

/-! ## src/scraper.py — WebsiteScraper

URLs are embedded structurally: a `Url` record carries the components
that Python's `urllib.parse.urlparse` would return for the rendered
string (for component strings free of the reserved delimiters,
`urlparse (render u)` recovers exactly these components), and
`Url.render` is the string the Python code holds.  The network and the
HTML parser (`aiohttp`, `BeautifulSoup`) are external libraries, so a
crawl environment is an oracle `world : String → Option PageData`
returning, for a fetched URL, the extracted text, title, description
and outbound links (the composition of `_fetch_page`, `_extract_text`,
`_extract_metadata` and `_extract_links`); `none` is a failed fetch
(non-200 or exception). -/

/-- Components of a parsed URL, as `urllib.parse.urlparse` returns
them. -/
structure Url where
  scheme : String
  netloc : String
  path : String
  query : String
  fragment : String
deriving DecidableEq, Repr

/-- The string form of a `Url` (what the Python code passes around). -/
def Url.render (u : Url) : String :=
  (if u.scheme == "" then "" else u.scheme ++ "://") ++ u.netloc ++ u.path ++
    (if u.query == "" then "" else "?" ++ u.query) ++
    (if u.fragment == "" then "" else "#" ++ u.fragment)

/-- Models the `skip_patterns` denylist literal. -/
def skip_patterns : List String :=
  [".pdf", ".jpg", ".jpeg", ".png", ".gif", ".css", ".js",
   ".zip", ".tar", ".gz", ".mp4", ".mp3", ".avi",
   "/wp-content/uploads/", "/wp-includes/",
   "mailto:", "tel:", "javascript:"]

/-- Models `WebsiteScraper._is_valid_url`.  Note that the denylist test
is `pattern in url.lower()` on the WHOLE rendered URL, not on its path
component. -/
def is_valid_url (base url : Url) : Bool :=
  if !(url.netloc == base.netloc) then false
  else if !(url.scheme == "http" || url.scheme == "https") then false
  else !(skip_patterns.any (fun p => containsSubstr (lowerStr (Url.render url)) p))

/-- Modelled from the spec (not from the source): the claim's wording
of the scope predicate, in which the denylist is tested against the
URL's PATH component only.  Kept solely to compare with
`is_valid_url`. -/
def specIsValidUrlPathOnly (base url : Url) : Bool :=
  url.netloc == base.netloc &&
    (url.scheme == "http" || url.scheme == "https") &&
    !(skip_patterns.any (fun p => containsSubstr (lowerStr url.path) p))

/-- What the environment yields for a successfully fetched URL: the
extracted main text, title, meta description and outbound links (the
output of `_extract_links`, already resolved and filtered). -/
structure PageData where
  text : String
  title : String
  description : String
  links : List String
deriving DecidableEq, Repr

/-- A record of `scraped_content`. -/
structure ScrapedPage where
  url : String
  title : String
  description : String
  content : String
  content_length : Nat
deriving DecidableEq, Repr

/-- Mutable state of a crawl run: `visited_urls` (a Python set,
represented as the list of elements in insertion order — the code
checks membership before every add), `scraped_content`, and the
`urls_to_visit` frontier. -/
structure ScrapeState where
  visited : List String
  scraped : List ScrapedPage
  frontier : List String
deriving DecidableEq, Repr

/-- Models the body of the `for url, html in results:` loop of
`WebsiteScraper.scrape` for one fetch result. -/
def processFetchResult (s : ScrapeState) (url : String) (result : Option PageData) : ScrapeState :=
  match result with
  | none => s
  | some pd =>
      if url ∈ s.visited then s
      else
        let visited := s.visited ++ [url]
        let scraped :=
          if 100 < pd.text.length then
            s.scraped ++ [{ url := url, title := pd.title, description := pd.description,
                            content := pd.text, content_length := pd.text.length }]
          else s.scraped
        let frontier := pd.links.foldl
          (fun fr link => if link ∉ visited ∧ link ∉ fr then fr ++ [link] else fr)
          s.frontier
        { visited := visited, scraped := scraped, frontier := frontier }

/-- Models one iteration of the `while` loop of `scrape`: dequeue a
batch of (at most) 5 frontier URLs, fetch them, and fold the per-result
loop body over the batch in order (`asyncio.gather` preserves order). -/
def scrapeBatchStep (world : String → Option PageData) (s : ScrapeState) : ScrapeState :=
  let batch := s.frontier.take 5
  let rest := s.frontier.drop 5
  batch.foldl (fun acc url => processFetchResult acc url (world url)) { s with frontier := rest }

/-- Models the `while urls_to_visit and len(self.visited_urls) <
self.max_pages:` loop; `fuel` bounds the number of iterations, and
every theorem below holds for every fuel, i.e. at whatever point the
loop stops. -/
def scrapeLoop (world : String → Option PageData) (max_pages : Nat) : Nat → ScrapeState → ScrapeState
  | 0, s => s
  | fuel + 1, s =>
      if s.frontier ≠ [] ∧ s.visited.length < max_pages then
        scrapeLoop world max_pages fuel (scrapeBatchStep world s)
      else s

/-- Models `WebsiteScraper.scrape`: the run starts from a fresh state
whose frontier holds the base URL. -/
def scrape (world : String → Option PageData) (max_pages : Nat) (base_url : String) (fuel : Nat) : ScrapeState :=
  scrapeLoop world max_pages fuel { visited := [], scraped := [], frontier := [base_url] }

end WebsiteScraper

namespace VectorStoreManager

/-! ## src/vector_store.py — VectorStoreManager

The Qdrant-backed retriever is an external service; the outcome of
`self.index.as_retriever(...).retrieve(query)` — including any
exception it raises — is an oracle of type `Except`.  The per-node
dictionaries `{"text", "score", "metadata"}` are `RetrievedSource`
records; of the metadata only the keys the engine reads (`title`,
`url`) are kept, as optional fields. -/

/-- Metadata keys of a retrieved node that the engine reads. -/
structure SourceMeta where
  title : Option String
  url : Option String
deriving Repr

/-- A `{"text", "score", "metadata"}` result dict. -/
structure RetrievedSource where
  text : String
  score : Float
  metadata : SourceMeta
deriving Repr

/-- Models `VectorStoreManager.search`: the `try` block turns retrieved
nodes into result dicts, and the `except` branch logs and returns `[]`
for any raised error. -/
def search (retrieval : Except String (List RetrievedSource)) : List RetrievedSource :=
  match retrieval with
  | .ok results => results
  | .error _ => []

end VectorStoreManager

namespace RAGEngine

/-! ## src/rag_engine.py — RAGEngine

The completion service and the `CondensePlusContextChatEngine`
(which performs retrieval and completion internally) are external
collaborators, embedded as `Except`-valued oracles.  The session store
of a chat engine is `SessionMemory.Store` whose metadata payload is the
list of source dicts attached to assistant messages
(`{"sources": source_nodes}` is identified with its single field). -/

/-- Models `llama_index`'s `ChatMessage` as the engine uses it. -/
structure ChatMsg where
  role : String
  content : String
deriving DecidableEq, Repr

/-- Models `RAGEngine._build_chat_history`: messages whose role is
neither "user" nor "assistant" are silently dropped. -/
def build_chat_history (st : SessionMemory.Store α) (sid : String) : List ChatMsg :=
  (SessionMemory.get_chat_history st sid none).foldl
    (fun acc m =>
      if m.role == "user" then acc ++ [{ role := "user", content := m.content }]
      else if m.role == "assistant" then acc ++ [{ role := "assistant", content := m.content }]
      else acc)
    []

/-- Fixed reply of `query` when retrieval yields nothing. -/
def NO_RESULTS_RESPONSE : String :=
  "Não encontrei informações relevantes sobre isso nos nossos documentos."

/-- Fixed apologetic reply of the `except` branch of `query`. -/
def QUERY_ERROR_RESPONSE : String :=
  "Desculpe, ocorreu um erro ao processar sua pergunta."

/-- Fixed apologetic reply of the `except` branch of `chat`. -/
def CHAT_ERROR_RESPONSE : String :=
  "Desculpe, ocorreu um erro ao processar sua mensagem. Por favor, tente novamente."

/-- Return dict of `RAGEngine.query`; `none` in an optional field means
the key is absent from the returned dict (the routed branch carries no
`sources` key). -/
structure QueryResult where
  response : String
  sources : Option (List VectorStoreManager.RetrievedSource) := none
  success : Bool
  routed_to : Option String := none
  error : Option String := none
deriving Repr

/-- Models the `"\n\n".join(...)` context built from search results,
with the `metadata.get` defaults of the source. -/
def buildContext (results : List VectorStoreManager.RetrievedSource) : String :=
  String.intercalate "\n\n" (results.map (fun r =>
    "[Fonte: " ++ r.metadata.title.getD "Documento" ++ " - " ++ r.metadata.url.getD "" ++ "]\n" ++ r.text))

/-- Models the f-string prompt of `query`. -/
def buildQueryPrompt (question context : String) : String :=
  "Com base nas seguintes informações, responda à pergunta:\n\nCONTEXTO:\n" ++ context ++
    "\n\nPERGUNTA: " ++ question ++ "\n\nResponda de forma clara e objetiva em português:"

/-- Models the stateless `RAGEngine.query`: route, then search, then a
single-shot completion; `retrieval` is the underlying retriever outcome
fed to `VectorStoreManager.search`, and `llm` the completion service. -/
def query (question : String) (retrieval : Except String (List VectorStoreManager.RetrievedSource))
    (llm : String → Except String String) : QueryResult :=
  match QueryRouter.route question with
  | some r => { response := r.response, routed_to := some r.routed_to, success := r.success }
  | none =>
      let results := VectorStoreManager.search retrieval
      if results.isEmpty then
        { response := NO_RESULTS_RESPONSE, sources := some [], success := true }
      else
        match llm (buildQueryPrompt question (buildContext results)) with
        | .ok text => { response := text, sources := some results, success := true }
        | .error e => { response := QUERY_ERROR_RESPONSE, sources := some [], success := false, error := some e }

/-- Session store of the chat engine: message metadata is the list of
source dicts attached to assistant messages. -/
abbrev ChatStore := SessionMemory.Store (List VectorStoreManager.RetrievedSource)

/-- Return dict of `RAGEngine.chat`. -/
structure ChatResult where
  response : String
  session_id : String
  sources : List VectorStoreManager.RetrievedSource
  success : Bool
  routed_to : Option String := none
  error : Option String := none
deriving Repr

/-- Models Python's `text[:500]` character slice. -/
def truncate500 (s : String) : String :=
  String.mk (s.data.take 500)

/-- Models the session-ensure step of `chat`: create the session iff
`get_session` found none. -/
def ensureSession (st : ChatStore) (sid : String) (now : Nat) : ChatStore :=
  if (SessionMemory.get_session st sid).isNone then
    (SessionMemory.create_session st sid none now).1
  else st

/-- The store right after `chat` has persisted the incoming user
message (step 2 of the turn), before routing, retrieval or
generation. -/
def chatUserPersisted (st : ChatStore) (sid message : String) (now : Nat) : ChatStore :=
  (SessionMemory.add_message (ensureSession st sid now) sid "user" message none now none).1

/-- Models `RAGEngine.chat`.  `gen` is the
`CondensePlusContextChatEngine` step — retrieval plus completion — as a
function of the chat history handed to the memory buffer and of the
user message; `Except.error` is any exception raised inside the `try`
during retrieval/generation, caught by the orchestrator boundary. -/
def chat (st : ChatStore) (message sid : String) (chat_history : Option (List ChatMsg)) (now : Nat)
    (gen : List ChatMsg → String → Except String (String × List VectorStoreManager.RetrievedSource)) :
    ChatResult × ChatStore :=
  let st2 := chatUserPersisted st sid message now
  match QueryRouter.route message with
  | some r =>
      let st3 := (SessionMemory.add_message st2 sid "assistant" r.response none now none).1
      ({ response := r.response, routed_to := some r.routed_to, success := r.success,
         session_id := sid, sources := [] }, st3)
  | none =>
      let history := match chat_history with
        | some h => h
        | none => build_chat_history st2 sid
      match gen history message with
      | .ok (text, nodes) =>
          let source_nodes := nodes.map (fun n => { n with text := truncate500 n.text })
          let st3 := (SessionMemory.add_message st2 sid "assistant" text
            (if source_nodes.isEmpty then none else some source_nodes) now none).1
          ({ response := text, session_id := sid, sources := source_nodes, success := true }, st3)
      | .error e =>
          ({ response := CHAT_ERROR_RESPONSE, session_id := sid, sources := [],
             success := false, error := some e }, st2)

end RAGEngine

/-! ## Concrete fixtures used by counterexamples and witnesses -/

/-- Store holding one session with one message (for C2). -/
def c2Store : SessionMemory.Store String :=
  { sessions := [⟨"s", 0, 0, none⟩], messages := [⟨"s", "user", "oi", 1, none⟩] }

/-- Store holding a single message of session "s" (for C3). -/
def c3Store : SessionMemory.Store String :=
  { sessions := [], messages := [⟨"s", "user", "m", 0, none⟩] }

/-- Crawl environment in which the base page "a" links to three further
pages (for C4). -/
def c4World : String → Option WebsiteScraper.PageData := fun u =>
  if u == "a" then some ⟨"", "", "", ["b", "c", "d"]⟩
  else if u == "b" || u == "c" || u == "d" then some ⟨"", "", "", []⟩
  else none

/-- Base URL of the C5 counterexample. -/
def c5Base : WebsiteScraper.Url := ⟨"http", "site.com", "", "", ""⟩

/-- In-scope URL whose QUERY STRING (not path) contains ".pdf"
(for C5). -/
def c5QueryUrl : WebsiteScraper.Url := ⟨"http", "site.com", "/page", "file=.pdf", ""⟩

/-- Empty session store (for the C7 witness). -/
def emptyChatStore : RAGEngine.ChatStore := { sessions := [], messages := [] }

/-- Session store whose session "s" holds a user message, a "system"
message and an assistant message (for the C9 witness). -/
def c9MixedStore : SessionMemory.Store String :=
  { sessions := [⟨"s", 0, 0, none⟩],
    messages := [⟨"s", "user", "oi", 0, none⟩, ⟨"s", "system", "interno", 1, none⟩,
                 ⟨"s", "assistant", "olá", 2, none⟩] }

/-! ## Theorems -/

namespace SessionMemory

/-- Ordered insertion grows the length by one. -/
theorem length_insertByTimestamp (m : MessageRow α) (l : List (MessageRow α)) :
    (insertByTimestamp m l).length = l.length + 1 := by
  induction l with
  | nil => rfl
  | cons y ys ih =>
      simp only [insertByTimestamp]
      split
      · simp
      · simp [ih]

/-- Membership in an ordered insertion. -/
theorem mem_insertByTimestamp {a m : MessageRow α} {l : List (MessageRow α)} :
    a ∈ insertByTimestamp m l ↔ a = m ∨ a ∈ l := by
  induction l with
  | nil => simp [insertByTimestamp]
  | cons y ys ih =>
      simp only [insertByTimestamp]
      split
      · simp [or_comm, or_left_comm]
      · simp [ih, or_comm, or_left_comm]

/-- Ordered insertion preserves sortedness by timestamp. -/
theorem sorted_insertByTimestamp {m : MessageRow α} {l : List (MessageRow α)}
    (h : l.Pairwise (fun a b => a.timestamp ≤ b.timestamp)) :
    (insertByTimestamp m l).Pairwise (fun a b => a.timestamp ≤ b.timestamp) := by
  induction l with
  | nil => simp [insertByTimestamp]
  | cons y ys ih =>
      rw [List.pairwise_cons] at h
      obtain ⟨hy, hys⟩ := h
      by_cases hle : m.timestamp ≤ y.timestamp
      · simp only [insertByTimestamp, if_pos hle, List.pairwise_cons]
        refine ⟨?_, ?_⟩
        · intro b hb
          rcases List.mem_cons.mp hb with hb | hb
          · exact hb ▸ hle
          · exact le_trans hle (hy b hb)
        · exact ⟨hy, hys⟩
      · have hym : y.timestamp ≤ m.timestamp := le_of_not_le hle
        simp only [insertByTimestamp, if_neg hle, List.pairwise_cons]
        refine ⟨?_, ih hys⟩
        intro b hb
        rcases mem_insertByTimestamp.mp hb with hb | hb
        · exact hb ▸ hym
        · exact hy b hb

/-- The stable sort preserves length. -/
theorem length_sortByTimestamp (l : List (MessageRow α)) :
    (sortByTimestamp l).length = l.length := by
  induction l with
  | nil => rfl
  | cons m ms ih => simp [sortByTimestamp, length_insertByTimestamp, ih]

/-- The stable sort preserves membership. -/
theorem mem_sortByTimestamp {a : MessageRow α} {l : List (MessageRow α)} :
    a ∈ sortByTimestamp l ↔ a ∈ l := by
  induction l with
  | nil => simp [sortByTimestamp]
  | cons m ms ih => simp [sortByTimestamp, mem_insertByTimestamp, ih]

/-- The stable sort sorts by timestamp. -/
theorem sorted_sortByTimestamp (l : List (MessageRow α)) :
    (sortByTimestamp l).Pairwise (fun a b => a.timestamp ≤ b.timestamp) := by
  induction l with
  | nil => simp [sortByTimestamp]
  | cons m ms ih => exact sorted_insertByTimestamp ih

end SessionMemory

/-- C3 counterexample: with `limit = 0` the claim demands at most `0`
messages, but on a store holding one message of session "s" the call
returns that message (the falsy limit is replaced by the default). -/
theorem C3_counterexample :
    (SessionMemory.get_chat_history c3Store "s" (some 0)).length = 1 ∧
    ¬ (SessionMemory.get_chat_history c3Store "s" (some 0)).length ≤ 0 := by
  decide

/-- C3 (amended): for every session id and every limit `k ≥ 1`,
`get_chat_history(session_id, limit=k)` returns at most `k` messages,
ordered ascending by timestamp, even if more than `k` messages exist (a
hard truncation).  (At `k = 0` the limit is falsy and the default takes
over, see the C10 theorem.) -/
theorem C3_history_truncation {α : Type} (st : SessionMemory.Store α) (sid : String)
    (k : Nat) (hk : 1 ≤ k) :
    (SessionMemory.get_chat_history st sid (some (k : Int))).length ≤ k ∧
    (SessionMemory.get_chat_history st sid (some (k : Int))).Pairwise
      (fun a b => a.timestamp ≤ b.timestamp) := by
  have hk0 : k ≠ 0 := by omega
  have hkz : ((k : Int)) ≠ 0 := by exact_mod_cast hk0
  have hnonneg : ¬ ((k : Int) < 0) := not_lt.mpr (Int.natCast_nonneg k)
  constructor
  · simp only [SessionMemory.get_chat_history, SessionMemory.effectiveLimit,
      SessionMemory.sqlLimit, if_neg hkz]
    simp only [if_neg hnonneg, List.length_map, List.length_take, Int.toNat_natCast]
    exact min_le_left _ _
  · simp only [SessionMemory.get_chat_history, SessionMemory.effectiveLimit,
      SessionMemory.sqlLimit, if_neg hkz]
    simp only [if_neg hnonneg]
    refine List.Pairwise.map _ (fun a b h => h) ?_
    exact (SessionMemory.sorted_sortByTimestamp _).sublist (List.take_sublist _ _)

/-- C3 witness: the amended theorem applied to the one-message store at
`k = 1`. -/
theorem C3_witness :
    1 ≤ 1 ∧
    ((SessionMemory.get_chat_history c3Store "s" (some ((1 : Nat) : Int))).length ≤ 1 ∧
     (SessionMemory.get_chat_history c3Store "s" (some ((1 : Nat) : Int))).Pairwise
       (fun a b => a.timestamp ≤ b.timestamp)) :=
  ⟨le_refl 1, C3_history_truncation c3Store "s" 1 (le_refl 1)⟩

/-- C10: a falsy limit (`0` or `None`) does not mean "zero messages":
it is replaced by the configured default `MAX_CHAT_HISTORY`, and the
call returns `min MAX_CHAT_HISTORY n` messages when the session holds
`n`. -/
theorem C10_falsy_limit_uses_default {α : Type} (st : SessionMemory.Store α) (sid : String) :
    SessionMemory.get_chat_history st sid (some 0) = SessionMemory.get_chat_history st sid none ∧
    (SessionMemory.get_chat_history st sid none).length =
      min SessionMemory.MAX_CHAT_HISTORY (SessionMemory.sessionMessages st sid).length := by
  constructor
  · rfl
  · simp [SessionMemory.get_chat_history, SessionMemory.effectiveLimit, SessionMemory.sqlLimit,
      SessionMemory.MAX_CHAT_HISTORY, SessionMemory.length_sortByTimestamp]

namespace SessionMemory

/-- Inserting into `sessions` leaves the `messages` table unchanged. -/
theorem messages_insertOrIgnoreSession (st : Store α) (sid : String) (now : Nat) :
    (insertOrIgnoreSession st sid now).messages = st.messages := by
  simp only [insertOrIgnoreSession]
  split <;> rfl

/-- After `INSERT OR IGNORE` the session row exists. -/
theorem sessionExists_insertOrIgnoreSession (st : Store α) (sid : String) (now : Nat) :
    sessionExists (insertOrIgnoreSession st sid now) sid = true := by
  simp only [insertOrIgnoreSession, sessionExists]
  split
  · assumption
  · simp

/-- Bumping `updated_at` does not change which session ids exist. -/
theorem sessionExists_bumpSessionUpdatedAt (st : Store α) (sid sid' : String) (now : Nat) :
    sessionExists (bumpSessionUpdatedAt st sid now) sid' = sessionExists st sid' := by
  obtain ⟨ss, ms⟩ := st
  simp only [sessionExists, bumpSessionUpdatedAt]
  induction ss with
  | nil => rfl
  | cons s rest ih =>
      simp only [List.map_cons, List.any_cons]
      have hid : ((if s.session_id == sid then { s with updated_at := now } else s).session_id)
          = s.session_id := by
        split <;> rfl
      rw [hid]
      simp only [List.any_map] at ih ⊢
      rw [ih]

end SessionMemory

/-- C8: `add_message` either commits all three statements — the
session row is ensured, the message row is appended verbatim, and the
session's `updated_at` is bumped — and returns `true`, or (when any of
the three statements raises) the connection closes with the transaction
uncommitted, the store is left exactly as it was, and `add_message`
returns `false`.  No message row is ever committed without its session
row. -/
theorem C8_add_message_atomic {α : Type} (st : SessionMemory.Store α)
    (sid role content : String) (md : Option α) (now : Nat)
    (failure : Option SessionMemory.DbFailure) :
    (SessionMemory.add_message st sid role content md now failure =
        (SessionMemory.bumpSessionUpdatedAt
          (SessionMemory.insertMessage (SessionMemory.insertOrIgnoreSession st sid now)
            sid role content now md) sid now, true) ∧
      (SessionMemory.add_message st sid role content md now failure).1.messages =
        st.messages ++ [⟨sid, role, content, now, md⟩] ∧
      SessionMemory.sessionExists (SessionMemory.add_message st sid role content md now failure).1 sid
        = true) ∨
    SessionMemory.add_message st sid role content md now failure = (st, false) := by
  cases failure with
  | none =>
      left
      refine ⟨rfl, ?_, ?_⟩
      · show (SessionMemory.bumpSessionUpdatedAt
            (SessionMemory.insertMessage (SessionMemory.insertOrIgnoreSession st sid now)
              sid role content now md) sid now).messages = st.messages ++ [⟨sid, role, content, now, md⟩]
        simp [SessionMemory.bumpSessionUpdatedAt, SessionMemory.insertMessage,
          SessionMemory.messages_insertOrIgnoreSession]
      · show SessionMemory.sessionExists (SessionMemory.bumpSessionUpdatedAt
            (SessionMemory.insertMessage (SessionMemory.insertOrIgnoreSession st sid now)
              sid role content now md) sid now) sid = true
        rw [SessionMemory.sessionExists_bumpSessionUpdatedAt]
        exact SessionMemory.sessionExists_insertOrIgnoreSession st sid now
  | some f => cases f <;> exact Or.inr rfl

/-- C2 evaluation at the failing input: on a store holding session "s"
with one message, `delete_session "s"` returns `true` and removes the
session row, yet the message row of "s" is still present — the
`PRAGMA foreign_keys` default leaves `ON DELETE CASCADE` unenforced, so
the session's messages outlive the session. -/
theorem C2_delete_session_leaves_messages :
    (SessionMemory.delete_session c2Store "s").2 = true ∧
    (SessionMemory.delete_session c2Store "s").1.sessions = [] ∧
    (SessionMemory.delete_session c2Store "s").1.messages.any
      (fun m => m.session_id == "s") = true := by
  decide

namespace SessionMemory

/-- The SQL `LIMIT` clause only drops rows. -/
theorem mem_sqlLimit {a : β} {k : Int} {l : List β} (h : a ∈ sqlLimit k l) : a ∈ l := by
  simp only [sqlLimit] at h
  split at h
  · exact h
  · exact List.mem_of_mem_take h

end SessionMemory

namespace RAGEngine

/-- Every element the `for` loop of `_build_chat_history` accumulates
has role "user" or "assistant" (given that the accumulator starts that
way). -/
theorem roles_of_buildFold {α : Type} (hist : List (SessionMemory.HistMsg α))
    (acc : List ChatMsg) (hacc : ∀ cm ∈ acc, cm.role = "user" ∨ cm.role = "assistant") :
    ∀ cm ∈ hist.foldl
      (fun acc m =>
        if m.role == "user" then acc ++ [{ role := "user", content := m.content }]
        else if m.role == "assistant" then acc ++ [{ role := "assistant", content := m.content }]
        else acc)
      acc,
      cm.role = "user" ∨ cm.role = "assistant" := by
  induction hist generalizing acc with
  | nil => exact hacc
  | cons m ms ih =>
      simp only [List.foldl_cons]
      apply ih
      intro cm hcm
      split at hcm
      · rcases List.mem_append.mp hcm with h | h
        · exact hacc cm h
        · left
          rw [List.mem_singleton.mp h]
      · split at hcm
        · rcases List.mem_append.mp hcm with h | h
          · exact hacc cm h
          · right
            rw [List.mem_singleton.mp h]
        · exact hacc cm hcm

end RAGEngine

/-- C9: `add_message` accepts and stores any role string verbatim,
without validation, and `get_chat_history` returns every stored role as
it sits in the `messages` table; but over ANY store, every entry of the
chat history `_build_chat_history` hands to the completion service has
role "user" or "assistant" — so every stored message with any other
role is silently omitted from the built history even though
`get_chat_history` returns it. -/
theorem C9_role_filtering {α : Type} (st : SessionMemory.Store α) (sid role content : String)
    (md : Option α) (now : Nat) :
    ((SessionMemory.add_message st sid role content md now none).2 = true ∧
      (SessionMemory.add_message st sid role content md now none).1.messages =
        st.messages ++ [⟨sid, role, content, now, md⟩]) ∧
    (∀ cm ∈ RAGEngine.build_chat_history st sid, cm.role = "user" ∨ cm.role = "assistant") ∧
    (∀ m ∈ SessionMemory.get_chat_history st sid none,
      ∃ r ∈ st.messages, r.session_id = sid ∧ r.role = m.role ∧ r.content = m.content) := by
  refine ⟨⟨rfl, ?_⟩, ?_, ?_⟩
  · show (SessionMemory.bumpSessionUpdatedAt
        (SessionMemory.insertMessage (SessionMemory.insertOrIgnoreSession st sid now)
          sid role content now md) sid now).messages = _
    simp [SessionMemory.bumpSessionUpdatedAt, SessionMemory.insertMessage,
      SessionMemory.messages_insertOrIgnoreSession]
  · exact RAGEngine.roles_of_buildFold (SessionMemory.get_chat_history st sid none) []
      (fun cm hcm => absurd hcm (List.not_mem_nil cm))
  · intro m hm
    simp only [SessionMemory.get_chat_history] at hm
    obtain ⟨r, hr, hfm⟩ := List.mem_map.mp hm
    have hr' := SessionMemory.mem_sortByTimestamp.mp (SessionMemory.mem_sqlLimit hr)
    obtain ⟨hrmem, hrsid⟩ := List.mem_filter.mp hr'
    exact ⟨r, hrmem, eq_of_beq hrsid, by rw [← hfm], by rw [← hfm]⟩

/-- C9 witness: on the store whose session "s" holds a user, a "system"
and an assistant message, the general theorem applies; concretely,
`get_chat_history` returns the roles ["user", "system", "assistant"]
while the built chat history holds only the user and assistant
entries. -/
theorem C9_witness :
    (((SessionMemory.add_message c9MixedStore "s" "system" "x" none 5 none).2 = true ∧
      (SessionMemory.add_message c9MixedStore "s" "system" "x" none 5 none).1.messages =
        c9MixedStore.messages ++ [⟨"s", "system", "x", 5, none⟩]) ∧
     (∀ cm ∈ RAGEngine.build_chat_history c9MixedStore "s",
        cm.role = "user" ∨ cm.role = "assistant") ∧
     (∀ m ∈ SessionMemory.get_chat_history c9MixedStore "s" none,
        ∃ r ∈ c9MixedStore.messages,
          r.session_id = "s" ∧ r.role = m.role ∧ r.content = m.content)) ∧
    (SessionMemory.get_chat_history c9MixedStore "s" none).map (fun m => m.role) =
      ["user", "system", "assistant"] ∧
    RAGEngine.build_chat_history c9MixedStore "s" =
      [{ role := "user", content := "oi" }, { role := "assistant", content := "olá" }] :=
  ⟨C9_role_filtering c9MixedStore "s" "system" "x" none 5, by decide, by decide⟩

namespace WebsiteScraper

/-- Processing one fetch result keeps the visited set duplicate-free
(the loop body checks membership before adding). -/
theorem visited_nodup_processFetchResult (s : ScrapeState) (url : String) (r : Option PageData)
    (h : s.visited.Nodup) : (processFetchResult s url r).visited.Nodup := by
  cases r with
  | none => exact h
  | some pd =>
      simp only [processFetchResult]
      split
      · exact h
      · rename_i hmem
        show (s.visited ++ [url]).Nodup
        simp [List.nodup_append, h, hmem]

/-- Processing one fetch result adds at most one visited URL. -/
theorem visited_length_processFetchResult (s : ScrapeState) (url : String) (r : Option PageData) :
    (processFetchResult s url r).visited.length ≤ s.visited.length + 1 := by
  cases r with
  | none => exact Nat.le_succ _
  | some pd =>
      simp only [processFetchResult]
      split
      · exact Nat.le_succ _
      · show (s.visited ++ [url]).length ≤ s.visited.length + 1
        simp

/-- Folding the loop body over a batch keeps the visited set
duplicate-free. -/
theorem visited_nodup_foldBatch (world : String → Option PageData) (batch : List String)
    (s : ScrapeState) (h : s.visited.Nodup) :
    (batch.foldl (fun acc url => processFetchResult acc url (world url)) s).visited.Nodup := by
  induction batch generalizing s with
  | nil => exact h
  | cons u us ih => exact ih _ (visited_nodup_processFetchResult _ _ _ h)

/-- Folding the loop body over a batch adds at most `batch.length`
visited URLs. -/
theorem visited_length_foldBatch (world : String → Option PageData) (batch : List String)
    (s : ScrapeState) :
    (batch.foldl (fun acc url => processFetchResult acc url (world url)) s).visited.length ≤
      s.visited.length + batch.length := by
  induction batch generalizing s with
  | nil => exact Nat.le_refl _
  | cons u us ih =>
      have h1 := visited_length_processFetchResult s u (world u)
      have h2 := ih (processFetchResult s u (world u))
      simp only [List.foldl_cons, List.length_cons]
      omega

/-- One while-loop iteration keeps the visited set duplicate-free. -/
theorem visited_nodup_scrapeBatchStep (world : String → Option PageData) (s : ScrapeState)
    (h : s.visited.Nodup) : (scrapeBatchStep world s).visited.Nodup :=
  visited_nodup_foldBatch world _ _ h

/-- One while-loop iteration visits at most 5 new URLs (the batch
size). -/
theorem visited_length_scrapeBatchStep (world : String → Option PageData) (s : ScrapeState) :
    (scrapeBatchStep world s).visited.length ≤ s.visited.length + 5 := by
  have h1 : (scrapeBatchStep world s).visited.length ≤
      s.visited.length + (s.frontier.take 5).length :=
    visited_length_foldBatch world (s.frontier.take 5) { s with frontier := s.frontier.drop 5 }
  have h2 : (s.frontier.take 5).length ≤ 5 := List.length_take_le 5 s.frontier
  omega

/-- Loop invariant of `scrapeLoop`: the visited set stays duplicate-free
and never exceeds `max_pages + 4` (the loop is entered only while
`visited < max_pages` and a batch adds at most 5). -/
theorem scrapeLoop_invariant (world : String → Option PageData) (max_pages : Nat) (fuel : Nat)
    (s : ScrapeState) (h1 : s.visited.Nodup) (h2 : s.visited.length ≤ max_pages + 4) :
    (scrapeLoop world max_pages fuel s).visited.Nodup ∧
    (scrapeLoop world max_pages fuel s).visited.length ≤ max_pages + 4 := by
  induction fuel generalizing s with
  | zero => exact ⟨h1, h2⟩
  | succ n ih =>
      simp only [scrapeLoop]
      split
      · rename_i hcond
        refine ih _ (visited_nodup_scrapeBatchStep world s h1) ?_
        have h3 := visited_length_scrapeBatchStep world s
        have h4 := hcond.2
        omega
      · exact ⟨h1, h2⟩

end WebsiteScraper

/-- C4 counterexample: the visited set can exceed the page budget.
With budget `max_pages = 2`, base page "a" linking to "b", "c", "d",
the second iteration starts with one visited page and fetches its whole
batch of three, ending with 4 visited URLs — more than the budget. -/
theorem C4_counterexample :
    (WebsiteScraper.scrape c4World 2 "a" 5).visited.length = 4 ∧
    ¬ ((WebsiteScraper.scrape c4World 2 "a" 5).visited.length ≤ 2) := by
  decide

/-- C4 (amended): for every crawl run (any environment, any budget, any
link structure, stopped after any number of iterations) the visited set
contains no duplicates, and its size is at most `max_pages + 4`: the
budget check happens only between batches of 5, so the final batch may
overshoot the budget by up to 4. -/
theorem C4_no_duplicate_visits (world : String → Option WebsiteScraper.PageData)
    (max_pages : Nat) (base_url : String) (fuel : Nat) :
    (WebsiteScraper.scrape world max_pages base_url fuel).visited.Nodup ∧
    (WebsiteScraper.scrape world max_pages base_url fuel).visited.length ≤ max_pages + 4 :=
  WebsiteScraper.scrapeLoop_invariant world max_pages fuel _ (List.nodup_nil) (by simp)

namespace WebsiteScraper

/-- Boolean normal form of the `_is_valid_url` if-chain. -/
theorem is_valid_url_eq (base url : Url) :
    is_valid_url base url =
      ((url.netloc == base.netloc) && (url.scheme == "http" || url.scheme == "https") &&
        !(skip_patterns.any (fun p => containsSubstr (lowerStr (Url.render url)) p))) := by
  simp only [is_valid_url]
  cases hx : (url.netloc == base.netloc) <;>
    cases hy : (url.scheme == "http" || url.scheme == "https") <;> simp [hx, hy]

end WebsiteScraper

/-- C5 counterexample: the denylist is matched against the WHOLE
lowercased URL, not its path.  For base `http://site.com` and the
in-scope URL `http://site.com/page?file=.pdf` — same host, scheme http,
path `/page` matching no denylisted pattern — the claim demands `true`,
but the code sees ".pdf" in the query string and returns `false`. -/
theorem C5_counterexample :
    WebsiteScraper.specIsValidUrlPathOnly c5Base c5QueryUrl = true ∧
    WebsiteScraper.is_valid_url c5Base c5QueryUrl = false := by
  decide

/-- C5 (amended): `_is_valid_url` returns true iff the URL's host
equals the base host, its scheme is http or https, and NO denylisted
pattern occurs anywhere in the whole lowercased URL (path, query and
fragment included); being a pure function, evaluating it twice on the
same URL trivially yields the same verdict. -/
theorem C5_is_valid_url_characterization (base url : WebsiteScraper.Url) :
    (WebsiteScraper.is_valid_url base url = true ↔
      (url.netloc = base.netloc ∧ (url.scheme = "http" ∨ url.scheme = "https") ∧
        ∀ p ∈ WebsiteScraper.skip_patterns,
          containsSubstr (lowerStr (WebsiteScraper.Url.render url)) p = false)) ∧
    WebsiteScraper.is_valid_url base url = WebsiteScraper.is_valid_url base url := by
  refine ⟨?_, rfl⟩
  rw [WebsiteScraper.is_valid_url_eq]
  simp [List.any_eq_false, and_assoc]

/-- C6: when the underlying retriever raises, `search` swallows the
error and returns `[]`, and the stateless `query` (on a question the
router leaves to RAG) turns that empty result into the fixed
"nothing relevant found" reply with `success=true` and `sources=[]` —
no exception escapes. -/
theorem C6_retrieval_degrades (err question : String)
    (llm : String → Except String String) (hroute : QueryRouter.route question = none) :
    VectorStoreManager.search (Except.error err) = [] ∧
    RAGEngine.query question (Except.error err) llm =
      { response := RAGEngine.NO_RESULTS_RESPONSE, sources := some [], success := true } := by
  refine ⟨rfl, ?_⟩
  simp only [RAGEngine.query]
  rw [hroute]
  rfl

/-- C6 witness: the error-outcome retrieval on the unrouted question
"Olá". -/
theorem C6_witness :
    QueryRouter.route "Olá" = none ∧
    (VectorStoreManager.search (Except.error "boom") = [] ∧
      RAGEngine.query "Olá" (Except.error "boom") (fun _ => Except.ok "") =
        { response := RAGEngine.NO_RESULTS_RESPONSE, sources := some [], success := true }) :=
  ⟨by decide, C6_retrieval_degrades "boom" "Olá" (fun _ => Except.ok "") (by decide)⟩

/-- C7: a chat turn persists the user message before retrieval or
completion run — the history handed to the generation step is built
from the store that already holds the user row — and if
retrieval/generation raises, the turn returns the fixed apologetic
reply with `success=false` and `sources=[]` while the store keeps the
already-persisted user message. -/
theorem C7_persist_before_generation (st : RAGEngine.ChatStore) (msg sid : String) (now : Nat)
    (gen : List RAGEngine.ChatMsg → String →
      Except String (String × List VectorStoreManager.RetrievedSource))
    (e : String) (hroute : QueryRouter.route msg = none)
    (hgen : gen (RAGEngine.build_chat_history (RAGEngine.chatUserPersisted st sid msg now) sid) msg
      = Except.error e) :
    RAGEngine.chat st msg sid none now gen =
      ({ response := RAGEngine.CHAT_ERROR_RESPONSE, session_id := sid, sources := [],
         success := false, error := some e }, RAGEngine.chatUserPersisted st sid msg now) ∧
    (⟨sid, "user", msg, now, none⟩ :
        SessionMemory.MessageRow (List VectorStoreManager.RetrievedSource))
      ∈ (RAGEngine.chatUserPersisted st sid msg now).messages := by
  constructor
  · simp only [RAGEngine.chat]
    rw [hroute, hgen]
  · have hmsgs : (RAGEngine.chatUserPersisted st sid msg now).messages =
        (RAGEngine.ensureSession st sid now).messages ++ [⟨sid, "user", msg, now, none⟩] := by
      show (SessionMemory.bumpSessionUpdatedAt
          (SessionMemory.insertMessage
            (SessionMemory.insertOrIgnoreSession (RAGEngine.ensureSession st sid now) sid now)
            sid "user" msg now none) sid now).messages = _
      simp [SessionMemory.bumpSessionUpdatedAt, SessionMemory.insertMessage,
        SessionMemory.messages_insertOrIgnoreSession]
    rw [hmsgs]
    exact List.mem_append_right _ (by simp)

/-- C7 witness: a failing generation step on the unrouted message "Oi"
against the empty store. -/
theorem C7_witness :
    QueryRouter.route "Oi" = none ∧
    ((fun (_ : List RAGEngine.ChatMsg) (_ : String) =>
        (Except.error "falha" : Except String (String × List VectorStoreManager.RetrievedSource)))
      (RAGEngine.build_chat_history (RAGEngine.chatUserPersisted emptyChatStore "s" "Oi" 0) "s") "Oi"
      = Except.error "falha") ∧
    (RAGEngine.chat emptyChatStore "Oi" "s" none 0 (fun _ _ => Except.error "falha") =
      ({ response := RAGEngine.CHAT_ERROR_RESPONSE, session_id := "s", sources := [],
         success := false, error := some "falha" },
        RAGEngine.chatUserPersisted emptyChatStore "s" "Oi" 0) ∧
      (⟨"s", "user", "Oi", 0, none⟩ :
          SessionMemory.MessageRow (List VectorStoreManager.RetrievedSource))
        ∈ (RAGEngine.chatUserPersisted emptyChatStore "s" "Oi" 0).messages) :=
  ⟨by decide, rfl,
    C7_persist_before_generation emptyChatStore "Oi" "s" 0 (fun _ _ => Except.error "falha")
      "falha" (by decide) rfl⟩

/-- C1 counterexample: the spec's second example message is NOT left to
RAG.  In "Vocês têm vidro temperado para entrega residencial?" the only
applicable product pattern is the literal "tem vidro", which does not
occur in the accented "têm vidro" (`re.IGNORECASE` does not fold `ê` to
`e`), while the delivery pattern "entrega" does occur; hence
`route` returns the support response, contradicting the claimed `None`. -/
theorem C1_counterexample :
    QueryRouter.route "Vocês têm vidro temperado para entrega residencial?" ≠ none ∧
    QueryRouter.route "Vocês têm vidro temperado para entrega residencial?" =
      some { response := QueryRouter.supportResponseText
             routed_to := "support"
             success := true } := by
  constructor
  · intro h
    simp only [QueryRouter.route] at h
    split at h
    · exact Option.noConfusion h
    · rename_i hq
      exact hq (by decide)
  · simp only [QueryRouter.route]
    split
    · rfl
    · rename_i hq
      exact absurd (by decide) hq

/-- C1 (amended): the delivery-only message "Qual o status da minha
entrega?" is routed to support, and the product-plus-delivery message is
routed to support as well when the verb is the accented "têm" (no
product pattern matches), while the unaccented variant
"Vocês tem vidro temperado para entrega residencial?" does match the
product pattern "tem vidro" and is NOT routed (route returns `None`). -/
theorem C1_routing_precedence :
    QueryRouter.route "Qual o status da minha entrega?" =
      some { response := QueryRouter.supportResponseText
             routed_to := "support"
             success := true } ∧
    QueryRouter.route "Vocês têm vidro temperado para entrega residencial?" =
      some { response := QueryRouter.supportResponseText
             routed_to := "support"
             success := true } ∧
    QueryRouter.route "Vocês tem vidro temperado para entrega residencial?" = none := by
  refine ⟨?_, ?_, ?_⟩ <;>
    · simp only [QueryRouter.route]
      split
      all_goals first
        | rfl
        | (rename_i hq; exact absurd (by decide) hq)
        | (rename_i hq; exact absurd hq (by decide))
